import Mathlib

/-!
Verification development for the CV AI Agent repository: a shallow
embedding in Lean 4 of the Flask application factory (src/app.py), the
configuration loader (src/config.py) and the post-deploy health-check
script (src/scripts/post_deploy_check.py), together with theorems that
settle the specification claims about them.
-/

namespace CvAiAgent

/-- A JSON value, covering the shapes this application produces. -/
inductive Json where
  | str : String → Json
  | bool : Bool → Json
  | num : Int → Json
  | obj : List (String × Json) → Json

/-- Logging severities used by the handlers and hooks in src/app.py. -/
inductive LogLevel where
  | debug
  | info
  | warning
  | error
deriving DecidableEq, Repr

/-- An HTTP response: status code, JSON body, and response headers. -/
structure Response where
  status : Nat
  body : Json
  headers : List (String × String)

/-- True when the JSON value is an object that has the given key. -/
def hasKey (j : Json) (k : String) : Bool :=
  match j with
  | Json.obj fields => fields.any (fun p => p.1 = k)
  | _ => false

/-- The value under a key of a JSON object, if any. -/
def getKey (j : Json) (k : String) : Option Json :=
  match j with
  | Json.obj fields => fields.lookup k
  | _ => none

/-- Handler of GET / in create_app (src/app.py lines 94-102): the static
service banner. -/
def home : Response :=
  { status := 200
    body := Json.obj
      [ ("service", Json.str "CV AI Agent")
      , ("version", Json.str "1.0.0")
      , ("status", Json.str "operational")
      , ("message", Json.str "Hello! I am your baby AI agent 🤖") ]
    headers := [] }

/-- Handler of GET /health (src/app.py lines 104-107). -/
def health_check : Response :=
  { status := 200
    body := Json.obj [("status", Json.str "healthy")]
    headers := [] }

/-- Handler of GET /ready (src/app.py lines 109-112). -/
def readiness_check : Response :=
  { status := 200
    body := Json.obj [("ready", Json.bool true)]
    headers := [] }

/-- The 404 error handler (src/app.py lines 117-120): error, message and
the request path. -/
def not_found (path : String) : Response :=
  { status := 404
    body := Json.obj
      [ ("error", Json.str "Not Found")
      , ("message", Json.str "Resource does not exist")
      , ("path", Json.str path) ]
    headers := [] }

/-- Severity at which the 404 handler logs (logger.warning on line 119). -/
def not_found_log : LogLevel := LogLevel.warning

/-- The 500 error handler (src/app.py lines 122-125). -/
def internal_error : Response :=
  { status := 500
    body := Json.obj
      [ ("error", Json.str "Internal Server Error")
      , ("message", Json.str "Unexpected error occurred") ]
    headers := [] }

/-- Severity at which the 500 handler logs (logger.error on line 124). -/
def internal_error_log : LogLevel := LogLevel.error

/-- The generic HTTPException handler (src/app.py lines 127-133): the body
carries the error name, description and numeric code, and the status is
the exception code. -/
def handle_http_exception (name description : String) (code : Nat) : Response :=
  { status := code
    body := Json.obj
      [ ("error", Json.str name)
      , ("message", Json.str description)
      , ("code", Json.num code) ]
    headers := [] }

/-- Log severity chosen by handle_http_exception (lines 129-132): error
for codes at least 500, warning for codes 400 to 499, nothing below. -/
def handle_http_exception_log (code : Nat) : Option LogLevel :=
  if 500 ≤ code then some LogLevel.error
  else if 400 ≤ code then some LogLevel.warning
  else none

/-- Header assignment as the response header map performs it: any existing
entries for the key are removed and the single new entry is appended. -/
def setHeader : List (String × String) → String → String → List (String × String)
  | [], k, v => [(k, v)]
  | p :: t, k, v => if p.1 = k then setHeader t k v else p :: setHeader t k v

/-- The after_request hook (src/app.py lines 142-152): sets the X-Service
and X-Version headers and returns the response otherwise unchanged. -/
def after_request (r : Response) : Response :=
  { r with headers := setHeader (setHeader r.headers "X-Service" "CV-AI-Agent") "X-Version" "1.0.0" }

/-- The routes registered by create_app (src/app.py lines 94-112): GET /,
GET /health and GET /ready, each with its static handler. -/
def registeredRoutes : List (String × Response) :=
  [("/", home), ("/health", health_check), ("/ready", readiness_check)]

/-- Route lookup: the handler registered for a path, if any. -/
def routeFor (path : String) : Option Response :=
  registeredRoutes.lookup path

/-- Full handling of a GET request by the application built by create_app:
route dispatch, falling through to the 404 handler for unknown paths, then
the after_request hook on whichever response was produced. -/
def dispatch (path : String) : Response :=
  let r :=
    match routeFor path with
    | some resp => resp
    | none => not_found path
  after_request r

/-! ### Configuration loader (src/config.py and get_config in src/app.py) -/

/-- A process environment: a partial map from variable names to values. -/
def Env : Type := String → Option String

/-- require_env (src/config.py lines 31-47): the value of the variable, or
a RuntimeError when it is not set. -/
def require_env (env : Env) (var_name : String) : Except String String :=
  match env var_name with
  | none => Except.error ("Required environment variable " ++ var_name ++ " is missing.")
  | some v => Except.ok v

/-- The required part of BaseConfig (src/config.py lines 59-60): the two
class attributes whose initialisation calls require_env. -/
structure BaseConfigRequired where
  SECRET_KEY : String
  DATABASE_URL : String

/-- Evaluation of the BaseConfig class body restricted to its required
variables (src/config.py lines 50-64): SECRET_KEY is read first, then
DATABASE_URL; the first missing one aborts startup with the error. The
remaining attributes all have defaults and cannot raise this error. -/
def mkBaseConfig (env : Env) : Except String BaseConfigRequired := do
  let sk ← require_env env "SECRET_KEY"
  let db ← require_env env "DATABASE_URL"
  pure { SECRET_KEY := sk, DATABASE_URL := db }

/-- The three configuration classes of src/config.py. -/
inductive ConfigClassT where
  | development
  | testing
  | production
deriving DecidableEq, Repr

/-- Python truthiness of a string option, as used by the expression
FLASK_ENV or APP_ENV: the left value when it is set and non-empty,
otherwise the right value. -/
def pyOrStr (a : Option String) (b : String) : String :=
  match a with
  | some s => if s = "" then b else s
  | none => b

/-- Lowercasing as env.lower() performs it on the class-selector strings,
written structurally over the characters so that it evaluates. -/
def strLower (s : String) : String := String.mk (s.data.map Char.toLower)

/-- get_config (src/app.py lines 50-63): select the configuration class
from FLASK_ENV or APP_ENV, defaulting to development. -/
def get_config (env : Env) : ConfigClassT :=
  let e := strLower (pyOrStr (env "FLASK_ENV") ((env "APP_ENV").getD "development"))
  if e = "production" then ConfigClassT.production
  else if e = "testing" then ConfigClassT.testing
  else ConfigClassT.development

/-- The claim's description of get_config, written from its words: read
FLASK_ENV; when it is unset or empty fall back to APP_ENV with default
development; lowercase; production and testing by exact match, otherwise
development. Stated separately so that get_config can be proved to refine
it. -/
def get_config_spec (env : Env) : ConfigClassT :=
  let raw : String :=
    match env "FLASK_ENV" with
    | some s => if s.isEmpty then (env "APP_ENV").getD "development" else s
    | none => (env "APP_ENV").getD "development"
  let e := strLower raw
  if e = "production" then ConfigClassT.production
  else if e = "testing" then ConfigClassT.testing
  else ConfigClassT.development

/-! ### Post-deploy check script (src/scripts/post_deploy_check.py) -/

/-- Observable trace of one check_endpoint call: the returned boolean, the
number of GET attempts performed, and the durations of the sleeps in the
order they happened. -/
structure CheckTrace where
  ok : Bool
  attempts : Nat
  sleeps : List Nat
deriving DecidableEq, Repr

/-- The retry loop of check_endpoint (lines 33-46) over the list of
outcomes the successive GET attempts would observe: some s is a response
with status s, none is a raised RequestException. A 200 returns True at
once; otherwise the script sleeps the delay exactly when further attempts
remain, and returns False after the last attempt. -/
def check_endpoint_list (delay : Nat) : List (Option Nat) → CheckTrace
  | [] => { ok := false, attempts := 0, sleeps := [] }
  | [o] =>
    if o = some 200 then { ok := true, attempts := 1, sleeps := [] }
    else { ok := false, attempts := 1, sleeps := [] }
  | o :: r :: rs =>
    if o = some 200 then { ok := true, attempts := 1, sleeps := [] }
    else
      let t := check_endpoint_list delay (r :: rs)
      { ok := t.ok, attempts := t.attempts + 1, sleeps := delay :: t.sleeps }

/-- The outcomes of the at-most-retries attempts, attempt k observing
resp k, for k from 1 to retries (the loop range(1, retries + 1)). -/
def attemptOutcomes (resp : Nat → Option Nat) (retries : Nat) : List (Option Nat) :=
  (List.range retries).map (fun i => resp (i + 1))

/-- check_endpoint (lines 21-46) against the response behaviour resp: the
attempt loop run on the outcomes of attempts 1 to retries. -/
def check_endpoint (resp : Nat → Option Nat) (retries delay : Nat) : CheckTrace :=
  check_endpoint_list delay (attemptOutcomes resp retries)

/-- main of the deploy-check script (lines 49-71): check /health, then
/ready, clearing all_ok for each endpoint whose check returned False, and
exit 0 when all_ok held, else 1. respHealth and respReady give the
outcomes the two endpoints produce on each attempt. -/
def main_exit (respHealth respReady : Nat → Option Nat) (retries delay : Nat) : Nat :=
  let all_ok := true
  let all_ok := if (check_endpoint respHealth retries delay).ok then all_ok else false
  let all_ok := if (check_endpoint respReady retries delay).ok then all_ok else false
  if all_ok then 0 else 1

/-! ### Helper lemmas -/

/-- Looking up the key just set finds the new value. -/
theorem lookup_setHeader_self (hs : List (String × String)) (k v : String) :
    (setHeader hs k v).lookup k = some v := by
  induction hs with
  | nil => simp [setHeader, List.lookup_cons]
  | cons p t ih =>
    obtain ⟨pk, pv⟩ := p
    by_cases h : pk = k
    · simpa [setHeader, h] using ih
    · have hb : (k == pk) = false := beq_eq_false_iff_ne.mpr (fun hc => h hc.symm)
      simpa [setHeader, h, List.lookup_cons, hb] using ih

/-- Setting one key leaves lookups of every other key unchanged. -/
theorem lookup_setHeader_ne (hs : List (String × String)) (k v k' : String)
    (h : ¬ k' = k) : (setHeader hs k v).lookup k' = hs.lookup k' := by
  have hb : (k' == k) = false := beq_eq_false_iff_ne.mpr h
  induction hs with
  | nil => simp [setHeader, List.lookup_cons, hb, List.lookup]
  | cons p t ih =>
    obtain ⟨pk, pv⟩ := p
    by_cases hp : pk = k
    · subst hp
      simpa [setHeader, List.lookup_cons, hb] using ih
    · by_cases hk : k' = pk
      · subst hk
        simp [setHeader, hp, List.lookup_cons]
      · have hbk : (k' == pk) = false := beq_eq_false_iff_ne.mpr hk
        simpa [setHeader, hp, List.lookup_cons, hbk] using ih

/-- after_request leaves status and body unchanged and makes the two
service headers present with their fixed values. -/
theorem after_request_spec (r : Response) :
    (after_request r).status = r.status ∧
    (after_request r).body = r.body ∧
    (after_request r).headers.lookup "X-Service" = some "CV-AI-Agent" ∧
    (after_request r).headers.lookup "X-Version" = some "1.0.0" := by
  refine ⟨rfl, rfl, ?_, ?_⟩
  · rw [after_request]
    have hne : ¬ ("X-Service" : String) = "X-Version" := by decide
    rw [lookup_setHeader_ne _ _ _ _ hne, lookup_setHeader_self]
  · rw [after_request]
    exact lookup_setHeader_self _ _ _

/-- The loop makes at most as many attempts as it was given outcomes. -/
theorem check_list_attempts_le (delay : Nat) :
    ∀ outs : List (Option Nat), (check_endpoint_list delay outs).attempts ≤ outs.length
  | [] => by simp [check_endpoint_list]
  | [o] => by
    by_cases h : o = some 200 <;> simp [check_endpoint_list, h]
  | o :: r :: rs => by
    by_cases h : o = some 200
    · simp [check_endpoint_list, h]
    · have ih := check_list_attempts_le delay (r :: rs)
      simp only [check_endpoint_list, h, if_false, List.length_cons] at ih ⊢
      omega

/-- On a non-empty outcome list the loop performs at least one attempt. -/
theorem check_list_attempts_pos (delay : Nat) :
    ∀ outs : List (Option Nat), outs ≠ [] → 1 ≤ (check_endpoint_list delay outs).attempts
  | [], h => absurd rfl h
  | [o], _ => by by_cases h : o = some 200 <;> simp [check_endpoint_list, h]
  | o :: r :: rs, _ => by
    by_cases h : o = some 200 <;> simp [check_endpoint_list, h]

/-- The loop returns True exactly when a 200 outcome occurs in the list. -/
theorem check_list_ok_iff (delay : Nat) :
    ∀ outs : List (Option Nat),
      ((check_endpoint_list delay outs).ok = true ↔ some 200 ∈ outs)
  | [] => by simp [check_endpoint_list]
  | [o] => by
    by_cases h : o = some 200 <;>
      simp [check_endpoint_list, h, eq_comm]
  | o :: r :: rs => by
    by_cases h : o = some 200
    · simp [check_endpoint_list, h]
    · have ih := check_list_ok_iff delay (r :: rs)
      have hne : ¬ (some 200 = o) := fun hc => h hc.symm
      simp only [check_endpoint_list, h, if_false]
      rw [ih, List.mem_cons (l := r :: rs)]
      tauto

/-- When the loop returns False it has used every attempt. -/
theorem check_list_false_attempts (delay : Nat) :
    ∀ outs : List (Option Nat), (check_endpoint_list delay outs).ok = false →
      (check_endpoint_list delay outs).attempts = outs.length
  | [], _ => by simp [check_endpoint_list]
  | [o], hfalse => by
    by_cases h : o = some 200
    · simp [check_endpoint_list, h] at hfalse
    · simp [check_endpoint_list, h]
  | o :: r :: rs, hfalse => by
    by_cases h : o = some 200
    · simp [check_endpoint_list, h] at hfalse
    · have ih := check_list_false_attempts delay (r :: rs)
      simp only [check_endpoint_list, h, if_false] at hfalse ⊢
      simp [ih hfalse]

/-- The sleeps are exactly one fixed delay between consecutive attempts:
one fewer sleep than attempts, each of the given duration. -/
theorem check_list_sleeps (delay : Nat) :
    ∀ outs : List (Option Nat),
      (check_endpoint_list delay outs).sleeps =
        List.replicate ((check_endpoint_list delay outs).attempts - 1) delay
  | [] => by simp [check_endpoint_list]
  | [o] => by by_cases h : o = some 200 <;> simp [check_endpoint_list, h]
  | o :: r :: rs => by
    by_cases h : o = some 200
    · simp [check_endpoint_list, h]
    · have ih := check_list_sleeps delay (r :: rs)
      have hpos := check_list_attempts_pos delay (r :: rs) (by simp)
      simp only [check_endpoint_list, h, if_false]
      rw [ih]
      have : (check_endpoint_list delay (r :: rs)).attempts + 1 - 1 =
          ((check_endpoint_list delay (r :: rs)).attempts - 1) + 1 := by omega
      rw [this, List.replicate_succ]

/-- When the loop returns True, the outcome at the final attempt is 200
and every earlier outcome is not. -/
theorem check_list_found (delay : Nat) :
    ∀ outs : List (Option Nat), (check_endpoint_list delay outs).ok = true →
      outs[(check_endpoint_list delay outs).attempts - 1]? = some (some 200) ∧
      ∀ j, j < (check_endpoint_list delay outs).attempts - 1 →
        ¬ outs[j]? = some (some 200)
  | [], htrue => by simp [check_endpoint_list] at htrue
  | [o], htrue => by
    by_cases h : o = some 200
    · subst h
      simp [check_endpoint_list]
    · simp [check_endpoint_list, h] at htrue
  | o :: r :: rs, htrue => by
    by_cases h : o = some 200
    · subst h
      simp [check_endpoint_list]
    · have ih := check_list_found delay (r :: rs)
      simp only [check_endpoint_list, h, if_false] at htrue ⊢
      have ⟨ih1, ih2⟩ := ih htrue
      have hpos := check_list_attempts_pos delay (r :: rs) (by simp)
      constructor
      · have harith : (check_endpoint_list delay (r :: rs)).attempts + 1 - 1 =
            ((check_endpoint_list delay (r :: rs)).attempts - 1) + 1 := by omega
        rw [harith, List.getElem?_cons_succ]
        exact ih1
      · intro j hj
        match j with
        | 0 =>
          simp only [List.getElem?_cons_zero]
          intro hc
          exact h (Option.some_injective _ hc)
        | Nat.succ j =>
          rw [List.getElem?_cons_succ]
          exact ih2 j (by omega)

/-- The outcome list of check_endpoint has one entry per allowed attempt. -/
theorem attemptOutcomes_length (resp : Nat → Option Nat) (retries : Nat) :
    (attemptOutcomes resp retries).length = retries := by
  simp [attemptOutcomes]

/-- Entry i of the outcome list is the outcome of attempt i + 1. -/
theorem attemptOutcomes_get (resp : Nat → Option Nat) (retries i : Nat)
    (h : i < retries) :
    (attemptOutcomes resp retries)[i]? = some (resp (i + 1)) := by
  simp [attemptOutcomes, h]

/-- A 200 occurs among the outcomes exactly when some attempt between 1
and retries observes a 200 response. -/
theorem attemptOutcomes_mem (resp : Nat → Option Nat) (retries : Nat) :
    some 200 ∈ attemptOutcomes resp retries ↔
      ∃ k, 1 ≤ k ∧ k ≤ retries ∧ resp k = some 200 := by
  simp only [attemptOutcomes, List.mem_map, List.mem_range]
  constructor
  · rintro ⟨i, hi, hresp⟩
    exact ⟨i + 1, by omega, by omega, hresp⟩
  · rintro ⟨k, h1, h2, hresp⟩
    refine ⟨k - 1, by omega, ?_⟩
    rw [Nat.sub_add_cancel h1]
    exact hresp

/-- check_endpoint succeeds exactly when some attempt within the retry
budget observes a 200 response. -/
theorem check_endpoint_ok_iff (resp : Nat → Option Nat) (retries delay : Nat) :
    (check_endpoint resp retries delay).ok = true ↔
      ∃ k, 1 ≤ k ∧ k ≤ retries ∧ resp k = some 200 := by
  rw [check_endpoint, check_list_ok_iff, attemptOutcomes_mem]

/-! ### Claim theorems -/

/-- C2: a GET request to /health returns HTTP 200 with JSON body with the
single key status mapped to healthy, and a GET request to /ready returns
HTTP 200 with JSON body with the single key ready mapped to true; the
documented keys status and ready are present. -/
theorem C2_health_ready_endpoints :
    (dispatch "/health").status = 200 ∧
    (dispatch "/health").body = Json.obj [("status", Json.str "healthy")] ∧
    hasKey (dispatch "/health").body "status" = true ∧
    (dispatch "/ready").status = 200 ∧
    (dispatch "/ready").body = Json.obj [("ready", Json.bool true)] ∧
    hasKey (dispatch "/ready").body "ready" = true :=
  ⟨rfl, rfl, rfl, rfl, rfl, rfl⟩

/-- C4: every request path with no registered route is answered by the
404 handler with HTTP 404 and the documented error envelope carrying the
request path. -/
theorem C4_unknown_route_404 (path : String) (h : routeFor path = none) :
    (dispatch path).status = 404 ∧
    (dispatch path).body = Json.obj
      [ ("error", Json.str "Not Found")
      , ("message", Json.str "Resource does not exist")
      , ("path", Json.str path) ] := by
  have hd : dispatch path = after_request (not_found path) := by
    unfold dispatch
    rw [h]
  rw [hd]
  exact ⟨rfl, rfl⟩

/-- Witness for C4 at the unimplemented path /projects. -/
theorem C4_unknown_route_404_witness :
    routeFor "/projects" = none ∧
    (dispatch "/projects").status = 404 ∧
    (dispatch "/projects").body = Json.obj
      [ ("error", Json.str "Not Found")
      , ("message", Json.str "Resource does not exist")
      , ("path", Json.str "/projects") ] :=
  ⟨rfl, (C4_unknown_route_404 "/projects" rfl).1, (C4_unknown_route_404 "/projects" rfl).2⟩

/-- C6 counterexample: the 404 handler responds with a body that has no
numeric code key (it carries the request path instead), and the 500
handler body has no code key either, so the claim that every handled
error body contains the numeric code fails at the 404 response for
/projects. -/
theorem C6_body_code_counterexample :
    (not_found "/projects").status = 404 ∧
    hasKey (not_found "/projects").body "code" = false ∧
    hasKey internal_error.body "code" = false :=
  ⟨rfl, rfl, rfl⟩

/-- C6 amended: each handled error responds with status equal to its code
and a JSON body carrying an error name and a message; the generic
HTTPException handler additionally carries the numeric code, the 404
handler carries the request path instead of a code, and the 500 handler
carries neither; events are logged at WARNING severity for codes 400 to
499 and at ERROR severity for codes at least 500. -/
theorem C6_error_handlers (name description path : String) (c : Nat) (h : 400 ≤ c) :
    (handle_http_exception name description c).status = c ∧
    (handle_http_exception name description c).body = Json.obj
      [ ("error", Json.str name)
      , ("message", Json.str description)
      , ("code", Json.num c) ] ∧
    handle_http_exception_log c =
      (if 500 ≤ c then some LogLevel.error else some LogLevel.warning) ∧
    (not_found path).status = 404 ∧
    hasKey (not_found path).body "error" = true ∧
    hasKey (not_found path).body "message" = true ∧
    getKey (not_found path).body "path" = some (Json.str path) ∧
    hasKey (not_found path).body "code" = false ∧
    not_found_log = LogLevel.warning ∧
    internal_error.status = 500 ∧
    hasKey internal_error.body "error" = true ∧
    hasKey internal_error.body "message" = true ∧
    hasKey internal_error.body "code" = false ∧
    internal_error_log = LogLevel.error := by
  refine ⟨rfl, rfl, ?_, rfl, rfl, rfl, rfl, rfl, rfl, rfl, rfl, rfl, rfl, rfl⟩
  unfold handle_http_exception_log
  by_cases h5 : 500 ≤ c
  · simp [h5]
  · simp [h5, h]

/-- Witness for C6 amended at the generic exception with code 503 and the
path /missing. -/
theorem C6_error_handlers_witness :
    400 ≤ 503 ∧
    ((handle_http_exception "Service Unavailable" "unavailable" 503).status = 503 ∧
     (handle_http_exception "Service Unavailable" "unavailable" 503).body = Json.obj
       [ ("error", Json.str "Service Unavailable")
       , ("message", Json.str "unavailable")
       , ("code", Json.num 503) ] ∧
     handle_http_exception_log 503 =
       (if 500 ≤ 503 then some LogLevel.error else some LogLevel.warning) ∧
     (not_found "/missing").status = 404 ∧
     hasKey (not_found "/missing").body "error" = true ∧
     hasKey (not_found "/missing").body "message" = true ∧
     getKey (not_found "/missing").body "path" = some (Json.str "/missing") ∧
     hasKey (not_found "/missing").body "code" = false ∧
     not_found_log = LogLevel.warning ∧
     internal_error.status = 500 ∧
     hasKey internal_error.body "error" = true ∧
     hasKey internal_error.body "message" = true ∧
     hasKey internal_error.body "code" = false ∧
     internal_error_log = LogLevel.error) :=
  ⟨by decide, C6_error_handlers "Service Unavailable" "unavailable" "/missing" 503 (by decide)⟩

/-- C7 counterexample: no route is registered for /info, and a GET
request to /info is answered by the 404 handler, refuting the claim that
the application exposes a registered GET /info endpoint. -/
theorem C7_info_route_counterexample :
    routeFor "/info" = none ∧ (dispatch "/info").status = 404 :=
  ⟨rfl, rfl⟩

/-- C7 amended: the application exposes GET /, GET /health and GET /ready
as registered routes; no /info route is registered, and a GET request to
/info falls through to the 404 handler and receives the 404 error
envelope. -/
theorem C7_http_surface :
    (routeFor "/").isSome = true ∧
    (routeFor "/health").isSome = true ∧
    (routeFor "/ready").isSome = true ∧
    routeFor "/info" = none ∧
    (dispatch "/info").status = 404 ∧
    (dispatch "/info").body = Json.obj
      [ ("error", Json.str "Not Found")
      , ("message", Json.str "Resource does not exist")
      , ("path", Json.str "/info") ] :=
  ⟨rfl, rfl, rfl, rfl, rfl, rfl⟩

/-- C8 counterexample: create_app registers exactly three routes, so the
claim that every call registers between five and seven routes is false. -/
theorem C8_route_count_counterexample :
    registeredRoutes.length = 3 ∧
    ¬ (5 ≤ registeredRoutes.length ∧ registeredRoutes.length ≤ 7) := by
  refine ⟨rfl, ?_⟩
  intro hc
  have hlen : registeredRoutes.length = 3 := rfl
  omega

/-- C8 amended: every call to create_app registers exactly three routes,
for the paths /, /health and /ready, each returning a static JSON
response with status 200. -/
theorem C8_routes_static :
    registeredRoutes.length = 3 ∧
    registeredRoutes.map Prod.fst = ["/", "/health", "/ready"] ∧
    registeredRoutes.all (fun p => p.2.status == 200) = true :=
  ⟨rfl, rfl, rfl⟩

/-- C9: the after_request hook adds the X-Service and X-Version headers
with their fixed values to every response the application produces,
including 404 error responses, and leaves the response status and body
unchanged. -/
theorem C9_service_headers (r : Response) (path : String) :
    (after_request r).status = r.status ∧
    (after_request r).body = r.body ∧
    (after_request r).headers.lookup "X-Service" = some "CV-AI-Agent" ∧
    (after_request r).headers.lookup "X-Version" = some "1.0.0" ∧
    (dispatch path).headers.lookup "X-Service" = some "CV-AI-Agent" ∧
    (dispatch path).headers.lookup "X-Version" = some "1.0.0" := by
  obtain ⟨h1, h2, h3, h4⟩ := after_request_spec r
  refine ⟨h1, h2, h3, h4, ?_, ?_⟩
  · exact (after_request_spec _).2.2.1
  · exact (after_request_spec _).2.2.2

/-- Case analysis of mkBaseConfig on the two required variables. -/
theorem mkBaseConfig_eq (env : Env) :
    mkBaseConfig env =
      match env "SECRET_KEY", env "DATABASE_URL" with
      | none, _ =>
        Except.error ("Required environment variable " ++ "SECRET_KEY" ++ " is missing.")
      | some _, none =>
        Except.error ("Required environment variable " ++ "DATABASE_URL" ++ " is missing.")
      | some sk, some db => Except.ok { SECRET_KEY := sk, DATABASE_URL := db } := by
  unfold mkBaseConfig require_env
  rcases env "SECRET_KEY" with _ | sk <;> rcases env "DATABASE_URL" with _ | db <;> rfl

/-- C3: when SECRET_KEY or DATABASE_URL is unset, evaluating BaseConfig
raises a startup RuntimeError, so the application cannot start; when both
are set, require_env returns exactly the value of each variable and the
configuration is constructed without error. -/
theorem C3_config_startup_validation (env : Env) :
    ((env "SECRET_KEY" = none ∨ env "DATABASE_URL" = none) →
      ∃ msg, mkBaseConfig env = Except.error msg) ∧
    (∀ sk db, env "SECRET_KEY" = some sk → env "DATABASE_URL" = some db →
      require_env env "SECRET_KEY" = Except.ok sk ∧
      require_env env "DATABASE_URL" = Except.ok db ∧
      mkBaseConfig env = Except.ok { SECRET_KEY := sk, DATABASE_URL := db }) := by
  have heq := mkBaseConfig_eq env
  constructor
  · intro hmiss
    rcases hmiss with hsk | hdb
    · rcases hdb : env "DATABASE_URL" with _ | w
      · rw [heq, hsk, hdb]
        exact ⟨_, rfl⟩
      · rw [heq, hsk, hdb]
        exact ⟨_, rfl⟩
    · rcases hsk : env "SECRET_KEY" with _ | v
      · rw [heq, hsk, hdb]
        exact ⟨_, rfl⟩
      · rw [heq, hsk, hdb]
        exact ⟨_, rfl⟩
  · intro sk db hsk hdb
    refine ⟨?_, ?_, ?_⟩
    · unfold require_env
      rw [hsk]
    · unfold require_env
      rw [hdb]
    · rw [heq, hsk, hdb]

/-- Environment with no variables set. -/
def envEmpty : Env := fun _ => none

/-- Environment with both required variables set. -/
def envFull : Env := fun k =>
  if k = "SECRET_KEY" then some "sk1"
  else if k = "DATABASE_URL" then some "db1"
  else none

/-- Witness for C3: with nothing set the configuration aborts with an
error, and with both variables set it is constructed from their values. -/
theorem C3_config_startup_validation_witness :
    (∃ msg, mkBaseConfig envEmpty = Except.error msg) ∧
    mkBaseConfig envFull = Except.ok { SECRET_KEY := "sk1", DATABASE_URL := "db1" } :=
  ⟨(C3_config_startup_validation envEmpty).1 (Or.inl rfl),
   ((C3_config_startup_validation envFull).2 "sk1" "db1" (by decide) (by decide)).2.2⟩

/-- C10: get_config is total, always returns one of the three
configuration classes, and implements exactly the selection the claim
describes: FLASK_ENV with fallback to APP_ENV (default development) when
FLASK_ENV is unset or empty, lowercased, production and testing matched
exactly and development for every other value. -/
theorem C10_get_config_selection (env : Env) :
    get_config env = get_config_spec env ∧
    (get_config env = ConfigClassT.production ∨
     get_config env = ConfigClassT.testing ∨
     get_config env = ConfigClassT.development) := by
  constructor
  · unfold get_config get_config_spec pyOrStr
    cases henv : env "FLASK_ENV" with
    | none => rfl
    | some s =>
      by_cases hs : s = ""
      · subst hs
        rfl
      · have hne : s.isEmpty = false := by
          cases hemp : s.isEmpty
          · rfl
          · exact absurd ((String.isEmpty_iff s).mp hemp) hs
        simp [hs, hne]
  · unfold get_config
    by_cases h1 :
        strLower (pyOrStr (env "FLASK_ENV") ((env "APP_ENV").getD "development")) = "production"
    · simp [h1]
    · by_cases h2 :
          strLower (pyOrStr (env "FLASK_ENV") ((env "APP_ENV").getD "development")) = "testing" <;>
        simp [h1, h2]

/-- Environment selecting production with mixed case through FLASK_ENV. -/
def envProdExample : Env := fun k => if k = "FLASK_ENV" then some "Production" else none

/-- Witness for C10 at an environment whose FLASK_ENV is Production. -/
theorem C10_get_config_selection_witness :
    get_config envProdExample = get_config_spec envProdExample ∧
    get_config envProdExample = ConfigClassT.production :=
  ⟨(C10_get_config_selection envProdExample).1, by decide⟩

/-- C5: check_endpoint performs at most retries GET attempts, returns
True at the first attempt observing a 200 with no further attempts and no
further sleeps, returns False after using the whole budget when no
attempt observes a 200, and sleeps exactly the fixed delay between
consecutive attempts, never after the final one. -/
theorem C5_check_endpoint_retry (resp : Nat → Option Nat) (retries delay : Nat)
    (h : 1 ≤ retries) :
    (check_endpoint resp retries delay).attempts ≤ retries ∧
    ((check_endpoint resp retries delay).ok = true ↔
      ∃ k, 1 ≤ k ∧ k ≤ retries ∧ resp k = some 200) ∧
    ((check_endpoint resp retries delay).ok = true →
      1 ≤ (check_endpoint resp retries delay).attempts ∧
      resp (check_endpoint resp retries delay).attempts = some 200 ∧
      ∀ j, 1 ≤ j → j < (check_endpoint resp retries delay).attempts →
        ¬ resp j = some 200) ∧
    ((check_endpoint resp retries delay).ok = false →
      (check_endpoint resp retries delay).attempts = retries) ∧
    (check_endpoint resp retries delay).sleeps =
      List.replicate ((check_endpoint resp retries delay).attempts - 1) delay := by
  have hck : check_endpoint resp retries delay =
      check_endpoint_list delay (attemptOutcomes resp retries) := rfl
  have hlen := attemptOutcomes_length resp retries
  have hle : (check_endpoint resp retries delay).attempts ≤ retries := by
    have h0 := check_list_attempts_le delay (attemptOutcomes resp retries)
    rw [hlen] at h0
    exact h0
  refine ⟨hle, check_endpoint_ok_iff resp retries delay, ?_, ?_, ?_⟩
  · intro hok
    have hpos : 1 ≤ (check_endpoint resp retries delay).attempts := by
      rw [hck]
      apply check_list_attempts_pos
      intro hnil
      rw [hck, hnil] at hok
      simp [check_endpoint_list] at hok
    have hfb := check_list_found delay (attemptOutcomes resp retries)
      (by rw [← hck]; exact hok)
    rw [← hck] at hfb
    obtain ⟨hfound, hbefore⟩ := hfb
    have hidx : (check_endpoint resp retries delay).attempts - 1 < retries := by omega
    rw [attemptOutcomes_get resp retries ((check_endpoint resp retries delay).attempts - 1) hidx]
      at hfound
    have hresp : resp (check_endpoint resp retries delay).attempts = some 200 := by
      have h1 : (check_endpoint resp retries delay).attempts - 1 + 1 =
          (check_endpoint resp retries delay).attempts := by omega
      rw [h1] at hfound
      exact Option.some_injective _ hfound
    refine ⟨hpos, hresp, ?_⟩
    intro j hj1 hj2 hc
    have hidxj : j - 1 < (check_endpoint resp retries delay).attempts - 1 := by omega
    have hjr : j - 1 < retries := by omega
    have hcontra := hbefore (j - 1) hidxj
    rw [attemptOutcomes_get resp retries (j - 1) hjr] at hcontra
    apply hcontra
    rw [Nat.sub_add_cancel hj1, hc]
  · intro hfalse
    have hfx : (check_endpoint_list delay (attemptOutcomes resp retries)).ok = false := by
      rw [← hck]
      exact hfalse
    rw [hck, check_list_false_attempts delay _ hfx]
    exact hlen
  · rw [hck]
    exact check_list_sleeps delay _

/-- Response behaviour that observes a 503, then a 200: attempt 2
succeeds. -/
def respSecondTry : Nat → Option Nat := fun k => if k = 2 then some 200 else some 503

/-- Witness for C5 at the behaviour succeeding on attempt 2 of 3, with a
delay of 7 seconds. -/
theorem C5_check_endpoint_retry_witness :
    1 ≤ 3 ∧
    ((check_endpoint respSecondTry 3 7).attempts ≤ 3 ∧
     ((check_endpoint respSecondTry 3 7).ok = true ↔
       ∃ k, 1 ≤ k ∧ k ≤ 3 ∧ respSecondTry k = some 200) ∧
     ((check_endpoint respSecondTry 3 7).ok = true →
       1 ≤ (check_endpoint respSecondTry 3 7).attempts ∧
       respSecondTry (check_endpoint respSecondTry 3 7).attempts = some 200 ∧
       ∀ j, 1 ≤ j → j < (check_endpoint respSecondTry 3 7).attempts →
         ¬ respSecondTry j = some 200) ∧
     ((check_endpoint respSecondTry 3 7).ok = false →
       (check_endpoint respSecondTry 3 7).attempts = 3) ∧
     (check_endpoint respSecondTry 3 7).sleeps =
       List.replicate ((check_endpoint respSecondTry 3 7).attempts - 1) 7) :=
  ⟨by decide, C5_check_endpoint_retry respSecondTry 3 7 (by decide)⟩

/-- C1: with a retry budget of at least one, the deploy-check main exits
with status 0 exactly when each of the two polled endpoints /health and
/ready observes a 200 response on at least one of its at most retries
attempts, and exits with status 1 otherwise. -/
theorem C1_main_exit_code (respHealth respReady : Nat → Option Nat)
    (retries delay : Nat) (h : 1 ≤ retries) :
    (main_exit respHealth respReady retries delay = 0 ↔
      ((∃ k, 1 ≤ k ∧ k ≤ retries ∧ respHealth k = some 200) ∧
       (∃ k, 1 ≤ k ∧ k ≤ retries ∧ respReady k = some 200))) ∧
    (¬ main_exit respHealth respReady retries delay = 0 →
      main_exit respHealth respReady retries delay = 1) := by
  have hH := check_endpoint_ok_iff respHealth retries delay
  have hR := check_endpoint_ok_iff respReady retries delay
  constructor
  · rw [← hH, ← hR]
    unfold main_exit
    by_cases bH : (check_endpoint respHealth retries delay).ok = true <;>
      by_cases bR : (check_endpoint respReady retries delay).ok = true <;>
      simp [bH, bR]
  · intro hne
    unfold main_exit at hne ⊢
    by_cases bH : (check_endpoint respHealth retries delay).ok = true <;>
      by_cases bR : (check_endpoint respReady retries delay).ok = true <;>
      simp [bH, bR] at hne ⊢

/-- Response behaviour that always observes a 200. -/
def respAlways200 : Nat → Option Nat := fun _ => some 200

/-- Witness for C1 with both endpoints healthy from the first attempt and
a budget of two retries. -/
theorem C1_main_exit_code_witness :
    1 ≤ 2 ∧
    ((main_exit respAlways200 respAlways200 2 1 = 0 ↔
       ((∃ k, 1 ≤ k ∧ k ≤ 2 ∧ respAlways200 k = some 200) ∧
        (∃ k, 1 ≤ k ∧ k ≤ 2 ∧ respAlways200 k = some 200))) ∧
     (¬ main_exit respAlways200 respAlways200 2 1 = 0 →
       main_exit respAlways200 respAlways200 2 1 = 1)) :=
  ⟨by decide, C1_main_exit_code respAlways200 respAlways200 2 1 (by decide)⟩

end CvAiAgent
